import Mathlib

/-!
Shallow embedding of the Ray-Casting repository's geometric core:
the `Vector2D` value type (src/utilities/math/Vector2D.js), the `Line`
segment with its cross-product intersection algorithm
(src/entities/Line.js), and the `Rays` bundle with its closest-hit scan
(src/entities/Rays.js), together with `clampBetweenRanges`
(src/utils/misc.js) and the legacy `Vector2D.normalize` variant kept in
src/utils/misc.js.

Embedding conventions:
* JavaScript numbers are embedded as exact rationals `ℚ`; the source's
  arithmetic (`+ - * /`, comparisons, strict `===` equality) is the
  corresponding exact rational arithmetic.  Quantities that need a real
  square root (`Math.hypot`, `Math.sqrt`) are embedded over `ℝ`.
* `Math.hypot x y` is strictly monotone in `x² + y²`, so guards of the
  form `hypot … === 0` are embedded as the decidable rational test
  `x² + y² = 0`, and comparisons `hypot … < hypot …` as comparisons of
  the squared distances.  This is an order isomorphism on the values
  compared, so every branch taken is the branch the source takes.
* `Math.cos`/`Math.sin` of the (degree) angle are transcendental; a
  rotation is therefore parameterised by the pair `(c, s)` standing for
  the cosine and sine of the rotation angle, and a `Line` stores that
  pair (`angleC`, `angleS`) in place of its degree field `#angle`.  The
  rotation-matrix structure of `rotate`/`rotateSelf` is embedded
  exactly, including the source's final snap of each component:
  `newX.toString().includes('e-') ? 0 : newX`.  A finite nonzero
  JavaScript number prints in scientific notation with a negative
  exponent exactly when its magnitude is below `10⁻⁶` (ECMA-262
  `Number::toString`: fixed notation is used exactly when the decimal
  exponent `n` satisfies `-6 < n ≤ 21`; large magnitudes print with
  `e+`), so the snap is embedded as the exact test `0 < |q| < 10⁻⁶`.
* Methods that can throw (`#typeCheck`) are embedded as functions
  returning the call's outcome (`Except Unit` — the `TypeError`) paired
  with the receiver's state when the call finishes or throws.
-/

/-- Embeds the `Vector2D` value `{x, y}` (src/utilities/math/Vector2D.js). -/
structure Vector2D where
  x : ℚ
  y : ℚ
deriving DecidableEq

namespace Vector2D

/-- Embeds `Vector2D.add` (non-mutating): componentwise sum, new vector. -/
def add (v w : Vector2D) : Vector2D := ⟨v.x + w.x, v.y + w.y⟩

/-- Embeds `Vector2D.subtract` (non-mutating): componentwise difference, new vector. -/
def subtract (v w : Vector2D) : Vector2D := ⟨v.x - w.x, v.y - w.y⟩

/-- Embeds `Vector2D.multiply` (non-mutating): componentwise product, new vector. -/
def multiply (v w : Vector2D) : Vector2D := ⟨v.x * w.x, v.y * w.y⟩

/-- Embeds `Vector2D.divide` (non-mutating): componentwise quotient, new vector. -/
def divide (v w : Vector2D) : Vector2D := ⟨v.x / w.x, v.y / w.y⟩

/-- Embeds `Vector2D.addScalar`: `(x + scalar, y + scalar2)`, new vector. -/
def addScalar (v : Vector2D) (scalar : ℚ) (scalar2 : ℚ := scalar) : Vector2D :=
  ⟨v.x + scalar, v.y + scalar2⟩

/-- Embeds `Vector2D.multiplyScalar`: `(x * scalar, y * scalar2)`, new vector. -/
def multiplyScalar (v : Vector2D) (scalar : ℚ) (scalar2 : ℚ := scalar) : Vector2D :=
  ⟨v.x * scalar, v.y * scalar2⟩

/-- Embeds `Vector2D.crossProduct`: `x * v.y - y * v.x`. -/
def crossProduct (v w : Vector2D) : ℚ := v.x * w.y - v.y * w.x

/-- Embeds `Vector2D.dotProduct`: `x * v.x + y * v.y`. -/
def dotProduct (v w : Vector2D) : ℚ := v.x * w.x + v.y * w.y

/-- Embeds `Vector2D.equals`: strict componentwise equality, as a boolean. -/
def equals (v w : Vector2D) : Bool := decide (v.x = w.x ∧ v.y = w.y)

/-- Embeds `Vector2D.toArray`: the two components as a list `[x, y]`. -/
def toArray (v : Vector2D) : List ℚ := [v.x, v.y]

/-- Embeds `Vector2D.clone`: a new vector with the same components. -/
def clone (v : Vector2D) : Vector2D := ⟨v.x, v.y⟩

/-- The square of `Vector2D.distance` (`Math.hypot (x - v.x) (y - v.y)`).
`hypot` is strictly monotone in this quantity, so the source's distance
comparisons are embedded as comparisons of `distanceSq`. -/
def distanceSq (v w : Vector2D) : ℚ := (v.x - w.x) ^ 2 + (v.y - w.y) ^ 2

/-- The square of `Vector2D.magnitude` (`Math.hypot x y`).  The source's
guard `magnitude === 0` holds exactly when `magnitudeSq = 0`. -/
def magnitudeSq (v : Vector2D) : ℚ := v.x ^ 2 + v.y ^ 2

/-- Embeds the per-component snap `rotate`/`rotateSelf` apply to their
results: `newX.toString().includes('e-') ? 0 : newX`
(src/utilities/math/Vector2D.js lines 587-588).  A finite nonzero double
prints with a negative scientific exponent exactly when its magnitude is
below `10⁻⁶`, so the test is embedded as `0 < |q| < 1/1000000`. -/
def snapTiny (q : ℚ) : ℚ :=
  if q ≠ 0 ∧ |q| < 1 / 1000000 then 0 else q

/-- Embeds `Vector2D.rotateSelf(point, angle)` with `(c, s)` standing for
`Math.cos`/`Math.sin` of `degreesToRadians angle`: translate by `-point`,
apply the rotation matrix, translate back, then snap each component that
would print with a negative scientific exponent to `0`.  (Identical
arithmetic to the non-mutating `rotate`; the value produced is the
receiver's new state.) -/
def rotateSelfCS (v point : Vector2D) (c s : ℚ) : Vector2D :=
  ⟨snapTiny ((v.x - point.x) * c - (v.y - point.y) * s + point.x),
   snapTiny ((v.x - point.x) * s + (v.y - point.y) * c + point.y)⟩

/-- Modelled from the spec's words (the §3 `Segment` invariant): `start`
translated by `length` along the local down axis is rotated by the plain
rotation matrix around `start` — no zero-snap.  This is the spec-side
definition of "rotated", kept separate so the claimed invariant can be
compared against the source's `rotateSelf`. -/
def rotateSpec (v point : Vector2D) (c s : ℚ) : Vector2D :=
  ⟨(v.x - point.x) * c - (v.y - point.y) * s + point.x,
   (v.x - point.x) * s + (v.y - point.y) * c + point.y⟩

end Vector2D

/-- Embeds the tagged result type of `Line.intersection`
(src/entities/Line.js): only the `intersection` tag carries a point. -/
inductive IntersectionResult where
  | colinearOverlapping
  | colinearDisjoint
  | colinearJoint
  | parallelNonIntersecting
  | intersection (point : Vector2D)
  | noIntersection
deriving DecidableEq

/-- Embeds the geometric state of `Line` (src/entities/Line.js):
`#startPoint`, `#endPoint`, the construction-time angle (stored as the
cosine/sine pair `angleC`/`angleS` of its radian value), the configured
`length`, and the stored `#intersectionPoint` (`none` = `undefined`). -/
structure Line where
  startPoint : Vector2D
  endPoint : Vector2D
  angleC : ℚ
  angleS : ℚ
  length : ℚ
  intersectionPoint : Option Vector2D
deriving DecidableEq

namespace Line

/-- The local `startDiff = line.start.subtract(this.start)` of `Line.intersection`
(receiver `a`, argument `b`). -/
def startDiff (a b : Line) : Vector2D := Vector2D.subtract b.startPoint a.startPoint

/-- The local `endDiff = this.end.subtract(this.start)` of `Line.intersection`. -/
def endDiff (a : Line) : Vector2D := Vector2D.subtract a.endPoint a.startPoint

/-- The local `lineDiff = line.end.subtract(line.start)` of `Line.intersection`. -/
def lineDiff (b : Line) : Vector2D := Vector2D.subtract b.endPoint b.startPoint

/-- The local `numerator = startDiff.crossProduct(endDiff)` of `Line.intersection`. -/
def numerator (a b : Line) : ℚ := Vector2D.crossProduct (startDiff a b) (endDiff a)

/-- The local `denominator = endDiff.crossProduct(lineDiff)` of `Line.intersection`. -/
def denominator (a b : Line) : ℚ := Vector2D.crossProduct (endDiff a) (lineDiff b)

/-- The local `u = numerator / denominator` of `Line.intersection`. -/
def uParam (a b : Line) : ℚ := numerator a b / denominator a b

/-- The local `t = startDiff.crossProduct(lineDiff) / denominator` of `Line.intersection`. -/
def tParam (a b : Line) : ℚ :=
  Vector2D.crossProduct (startDiff a b) (lineDiff b) / denominator a b

/-- The endpoint-equality test of `Line.intersection`'s colinear branch:
`this.start.equals(line.start) || this.end.equals(line.start) ||
this.start.equals(line.end) || this.end.equals(line.end)`. -/
def touches (a b : Line) : Bool :=
  Vector2D.equals a.startPoint b.startPoint || Vector2D.equals a.endPoint b.startPoint ||
    Vector2D.equals a.startPoint b.endPoint || Vector2D.equals a.endPoint b.endPoint

/-- The flattened `differences` array of `Line.intersection`'s colinear
branch: `[startDiff, line.start - this.end, line.end - this.start,
line.end - this.end]`, each `toArray`ed and flattened. -/
def differences (a b : Line) : List ℚ :=
  Vector2D.toArray (startDiff a b) ++
    Vector2D.toArray (Vector2D.subtract b.startPoint a.endPoint) ++
    Vector2D.toArray (Vector2D.subtract b.endPoint a.startPoint) ++
    Vector2D.toArray (Vector2D.subtract b.endPoint a.endPoint)

/-- The `differences.flat().every(point => point < 0)` test of
`Line.intersection`'s colinear branch. -/
def allNegative (a b : Line) : Bool := (differences a b).all fun point => decide (point < 0)

/-- The `fallsWithinLineSegment = t >= 0 && t <= 1 && u >= 0 && u <= 1`
test of `Line.intersection`. -/
def fallsWithin (a b : Line) : Prop :=
  tParam a b ≥ 0 ∧ tParam a b ≤ 1 ∧ uParam a b ≥ 0 ∧ uParam a b ≤ 1

instance (a b : Line) : Decidable (fallsWithin a b) := by
  unfold fallsWithin; infer_instance

/-- The `intersectionPoint = this.start.add(endDiff.multiplyScalar(t))`
of `Line.intersection`'s in-bounds branch. -/
def crossingPoint (a b : Line) : Vector2D :=
  Vector2D.add a.startPoint (Vector2D.multiplyScalar (endDiff a) (tParam a b))

/-- Embeds `Line.intersection(line)` (src/entities/Line.js): the
cross-product segment-intersection algorithm, with its case precedence —
colinear (both cross products zero, subdivided by endpoint touching and
the all-negative difference heuristic), parallel (denominator zero),
and otherwise the parametric in-bounds test. -/
def intersection (a b : Line) : IntersectionResult :=
  if numerator a b = 0 ∧ denominator a b = 0 then
    if touches a b then .colinearOverlapping
    else if allNegative a b then .colinearJoint
    else .colinearDisjoint
  else if denominator a b = 0 then .parallelNonIntersecting
  else if fallsWithin a b then .intersection (crossingPoint a b)
  else .noIntersection

/-- Embeds `Line.update(position)` (src/entities/Line.js):
`#startPoint.copy(position)` then
`#endPoint = #startPoint.addScalar(0, length).rotateSelf(#startPoint, #angle)`.
Only the two endpoints are written; every other field is untouched. -/
def update (l : Line) (position : Vector2D) : Line :=
  { l with
    startPoint := position
    endPoint :=
      Vector2D.rotateSelfCS (Vector2D.addScalar position 0 l.length) position l.angleC l.angleS }

/-- State-observing form of `Line.intersection`: the call's result
together with the two segments' states after the call.  Every vector
operation the source body invokes — `subtract`, `crossProduct`,
`equals`, `toArray`, `add`, `multiplyScalar` — is a copy-producing
operation, and the body assigns no field of either segment, so the
post-call states are the unchanged inputs. -/
def intersectionCall (a b : Line) : IntersectionResult × Line × Line :=
  (intersection a b, a, b)

end Line

namespace Rays

/-- The `distance < observer.record` test of `Rays.intersect`, with the
record `none` standing for the initial `Infinity` (every finite distance
beats it) and distances compared via their squares. -/
def better (d : ℚ) : Option ℚ → Bool
  | none => true
  | some r => decide (d < r)

/-- One obstacle iteration of `Rays.intersect`'s closest-hit tracking
(src/entities/Rays.js): compute `line.intersection(obstacle)`; when the
result carries a point whose distance from `line.start` beats the
record, update `(closest, record)`; otherwise keep the state. -/
def step (ray : Line) (st : Option Vector2D × Option ℚ) (ob : Line) :
    Option Vector2D × Option ℚ :=
  match Line.intersection ray ob with
  | .intersection p =>
      let d := Vector2D.distanceSq ray.startPoint p
      if better d st.2 then (some p, some d) else st
  | _ => st

/-- One full loop iteration of `Rays.intersect` for one obstacle: the
closest-hit update followed by the in-loop assignment
`line.intersectionPoint = closest ? closest : line.end.clone()`.
The threaded state is `(intersectionPoint, closest, record)`. -/
def loopStep (ray : Line) (st : Option Vector2D × Option Vector2D × Option ℚ) (ob : Line) :
    Option Vector2D × Option Vector2D × Option ℚ :=
  let cr := step ray (st.2.1, st.2.2) ob
  (some (cr.1.getD (Vector2D.clone ray.endPoint)), cr.1, cr.2)

/-- Embeds `Rays.intersect(lines)` for one ray (src/entities/Rays.js):
start from `closest = null`, `record = Infinity` and the ray's current
`intersectionPoint`, run the obstacle loop, and keep the
`intersectionPoint` the loop last assigned (with an empty obstacle list
no assignment runs and the stored value is untouched). -/
def intersectLine (ray : Line) (obstacles : List Line) : Line :=
  let fin := obstacles.foldl (loopStep ray) (ray.intersectionPoint, none, none)
  { ray with intersectionPoint := fin.1 }

/-- Embeds `Rays.intersect(lines)` over the whole bundle: the per-ray
scan applied to every owned segment. -/
def intersect (rays : List Line) (obstacles : List Line) : List Line :=
  rays.map fun l => intersectLine l obstacles

/-- `obstacle ∈ obstacles` yields the carried point `p` for `ray`:
the predicate "some obstacle's intersection result carries `p`". -/
def carries (ray : Line) (obstacles : List Line) (p : Vector2D) : Prop :=
  ∃ ob ∈ obstacles, Line.intersection ray ob = .intersection p

end Rays

/-- Embeds `clampBetweenRanges(value, valueRange, newRange)`
(src/utils/misc.js):
`((value - valueRange[0]) / (valueRange[1] - valueRange[0])) * (newRange[1] - newRange[0]) + newRange[0]`. -/
def clampBetweenRanges (value : ℚ) (valueRange newRange : ℚ × ℚ) : ℚ :=
  (value - valueRange.1) / (valueRange.2 - valueRange.1) * (newRange.2 - newRange.1) + newRange.1

/-- Embeds the angle assignment of `Rays.#init` (src/entities/Rays.js):
ray `i` of `amount` receives `clampBetweenRanges(i, [0, amount], angle)`. -/
def rayAngles (amount : ℕ) (angle : ℚ × ℚ) : List ℚ :=
  (List.range amount).map fun i : ℕ => clampBetweenRanges (i : ℚ) (0, (amount : ℚ)) angle

/-- A dynamically-typed JavaScript argument, as far as
`Vector2D.#typeCheck('Vector', received)` can observe it: a genuine
`Vector2D` instance, the missing-argument value `undefined`, a number,
or anything else. -/
inductive JsVal where
  | vec (w : Vector2D)
  | undef
  | num (q : ℚ)
  | other
deriving DecidableEq

namespace Vector2D

/-- Embeds `Vector2D.#typeCheck('Vector', received)`
(src/utilities/math/Vector2D.js): the `received instanceof Vector2D`
test; `none` means the check throws its `TypeError`. -/
def typeCheckVector : JsVal → Option Vector2D
  | .vec w => some w
  | _ => none

/-- Embeds a call of `Vector2D.add(vector)` with a dynamically-typed
operand: `#typeCheck` runs before anything else, so a failing check
throws (`Except.error`) with the receiver still in its entry state;
otherwise a new sum vector is returned and the receiver is untouched.
The pair is (call outcome, receiver state after the call). -/
def addCall (v : Vector2D) (a : JsVal) : Except Unit Vector2D × Vector2D :=
  match typeCheckVector a with
  | none => (.error (), v)
  | some w => (.ok (add v w), v)

/-- Embeds a call of `Vector2D.subtract(vector)`; see `addCall`. -/
def subtractCall (v : Vector2D) (a : JsVal) : Except Unit Vector2D × Vector2D :=
  match typeCheckVector a with
  | none => (.error (), v)
  | some w => (.ok (subtract v w), v)

/-- Embeds a call of `Vector2D.multiply(vector)`; see `addCall`. -/
def multiplyCall (v : Vector2D) (a : JsVal) : Except Unit Vector2D × Vector2D :=
  match typeCheckVector a with
  | none => (.error (), v)
  | some w => (.ok (multiply v w), v)

/-- Embeds a call of `Vector2D.divide(vector)`; see `addCall`. -/
def divideCall (v : Vector2D) (a : JsVal) : Except Unit Vector2D × Vector2D :=
  match typeCheckVector a with
  | none => (.error (), v)
  | some w => (.ok (divide v w), v)

/-- Embeds a call of `Vector2D.addSelf(vector)`: `#typeCheck` runs
before the two component assignments, so a failing check throws with
the receiver unchanged; otherwise the receiver becomes the sum and is
also the returned value. -/
def addSelfCall (v : Vector2D) (a : JsVal) : Except Unit Vector2D × Vector2D :=
  match typeCheckVector a with
  | none => (.error (), v)
  | some w => (.ok (add v w), add v w)

/-- Embeds a call of `Vector2D.subtractSelf(vector)`; see `addSelfCall`. -/
def subtractSelfCall (v : Vector2D) (a : JsVal) : Except Unit Vector2D × Vector2D :=
  match typeCheckVector a with
  | none => (.error (), v)
  | some w => (.ok (subtract v w), subtract v w)

/-- Embeds a call of `Vector2D.multiplySelf(vector)`; see `addSelfCall`. -/
def multiplySelfCall (v : Vector2D) (a : JsVal) : Except Unit Vector2D × Vector2D :=
  match typeCheckVector a with
  | none => (.error (), v)
  | some w => (.ok (multiply v w), multiply v w)

/-- Embeds a call of `Vector2D.divideSelf(vector)`; see `addSelfCall`. -/
def divideSelfCall (v : Vector2D) (a : JsVal) : Except Unit Vector2D × Vector2D :=
  match typeCheckVector a with
  | none => (.error (), v)
  | some w => (.ok (divide v w), divide v w)

/-- The real magnitude `Math.hypot x y` of a vector. -/
noncomputable def magnitudeR (v : Vector2D) : ℝ :=
  Real.sqrt ((v.x : ℝ) ^ 2 + (v.y : ℝ) ^ 2)

/-- Embeds `Vector2D.normalize` (src/utilities/math/Vector2D.js): when
the magnitude is `0` (equivalently `x² + y² = 0`, the decidable form of
the source's `magnitude === 0` guard) return `new Vector2D()` — the zero
vector; otherwise divide both components by the magnitude. -/
noncomputable def normalize (v : Vector2D) : ℝ × ℝ :=
  if magnitudeSq v = 0 then (0, 0)
  else ((v.x : ℝ) / magnitudeR v, (v.y : ℝ) / magnitudeR v)

/-- Embeds `Vector2D.normalizeSelf`: when the magnitude is `0` return
`this` unchanged; otherwise divide both components by the magnitude.
The value is the receiver's state after the call. -/
noncomputable def normalizeSelf (v : Vector2D) : ℝ × ℝ :=
  if magnitudeSq v = 0 then ((v.x : ℝ), (v.y : ℝ))
  else ((v.x : ℝ) / magnitudeR v, (v.y : ℝ) / magnitudeR v)

/-- Embeds the legacy `Vector2D.normalize` of src/utils/misc.js:
`new Vector2D({ x: x / sqrt(x² + y²) || 1, y: y / sqrt(x² + y²) || 1 })`.
JavaScript `a || 1` yields `1` when `a` is `NaN` or `0`: the quotient is
`NaN` exactly when the magnitude is `0` (`0 / 0`), and it is `0` exactly
when the numerator component is `0` with a nonzero magnitude. -/
noncomputable def legacyNormalize (v : Vector2D) : ℝ × ℝ :=
  if magnitudeSq v = 0 then (1, 1)
  else ((if v.x = 0 then 1 else (v.x : ℝ) / magnitudeR v),
        (if v.y = 0 then 1 else (v.y : ℝ) / magnitudeR v))

end Vector2D

/-- A `Line` whose geometric state is given directly by its four endpoint
components, with no stored intersection point; the rotation data and
length are irrelevant to `Line.intersection` and set to the identity
rotation and zero length. -/
def segOf (sx sy ex ey : ℚ) : Line :=
  { startPoint := ⟨sx, sy⟩, endPoint := ⟨ex, ey⟩, angleC := 1, angleS := 0, length := 0,
    intersectionPoint := none }

/-- C1: when the denominator `r × s` is nonzero (so the cross products are
not both zero), `Line.intersection` returns the `intersection` result
carrying `p + r·t` exactly when both parameters `t` and `u` lie in
`[0, 1]`, and `no-intersection` otherwise; in particular the segments
`(0,0)-(10,10)` and `(0,10)-(10,0)` intersect at `(5,5)`. -/
theorem line_intersection_param_characterisation :
    (∀ a b : Line, Line.denominator a b ≠ 0 →
      ((Line.intersection a b =
          .intersection (Vector2D.add a.startPoint
            (Vector2D.multiplyScalar (Line.endDiff a) (Line.tParam a b)))) ↔
        (0 ≤ Line.tParam a b ∧ Line.tParam a b ≤ 1 ∧
          0 ≤ Line.uParam a b ∧ Line.uParam a b ≤ 1)) ∧
      (¬(0 ≤ Line.tParam a b ∧ Line.tParam a b ≤ 1 ∧
          0 ≤ Line.uParam a b ∧ Line.uParam a b ≤ 1) →
        Line.intersection a b = .noIntersection)) ∧
    Line.intersection (segOf 0 0 10 10) (segOf 0 10 10 0) = .intersection ⟨5, 5⟩ := by
  constructor
  · intro a b hden
    have hnot : ¬(Line.numerator a b = 0 ∧ Line.denominator a b = 0) := fun h => hden h.2
    by_cases hf : Line.fallsWithin a b
    · have hres : Line.intersection a b = .intersection (Line.crossingPoint a b) := by
        unfold Line.intersection
        rw [if_neg hnot, if_neg hden, if_pos hf]
      obtain ⟨h1, h2, h3, h4⟩ := hf
      exact ⟨by simp [hres, Line.crossingPoint, ge_iff_le] at *; tauto,
             fun hc => absurd ⟨h1, h2, h3, h4⟩ hc⟩
    · have hres : Line.intersection a b = .noIntersection := by
        unfold Line.intersection
        rw [if_neg hnot, if_neg hden, if_neg hf]
      refine ⟨⟨fun hc => absurd hc (by simp [hres]), fun hc => ?_⟩, fun _ => hres⟩
      exact absurd (by exact ⟨hc.1, hc.2.1, hc.2.2.1, hc.2.2.2⟩ : Line.fallsWithin a b) hf
  · norm_num [Line.intersection, Line.numerator, Line.denominator, Line.startDiff, Line.endDiff,
      Line.lineDiff, Line.fallsWithin, Line.tParam, Line.uParam, Line.crossingPoint,
      Vector2D.subtract, Vector2D.crossProduct, Vector2D.add, Vector2D.multiplyScalar, segOf]

/-- Witness for C1: the crossing pair `(0,0)-(10,10)` and `(0,10)-(10,0)`
has nonzero denominator, and the characterisation holds there. -/
theorem line_intersection_param_characterisation_witness :
    Line.denominator (segOf 0 0 10 10) (segOf 0 10 10 0) ≠ 0 ∧
    ((Line.intersection (segOf 0 0 10 10) (segOf 0 10 10 0) =
        .intersection (Vector2D.add (segOf 0 0 10 10).startPoint
          (Vector2D.multiplyScalar (Line.endDiff (segOf 0 0 10 10))
            (Line.tParam (segOf 0 0 10 10) (segOf 0 10 10 0))))) ↔
      (0 ≤ Line.tParam (segOf 0 0 10 10) (segOf 0 10 10 0) ∧
        Line.tParam (segOf 0 0 10 10) (segOf 0 10 10 0) ≤ 1 ∧
        0 ≤ Line.uParam (segOf 0 0 10 10) (segOf 0 10 10 0) ∧
        Line.uParam (segOf 0 0 10 10) (segOf 0 10 10 0) ≤ 1)) :=
  ⟨by norm_num [Line.denominator, Line.endDiff, Line.lineDiff, Vector2D.subtract,
      Vector2D.crossProduct, segOf],
   (line_intersection_param_characterisation.1 _ _
      (by norm_num [Line.denominator, Line.endDiff, Line.lineDiff, Vector2D.subtract,
        Vector2D.crossProduct, segOf])).1⟩

/-- C4: in the colinear case (numerator and denominator both zero),
`Line.intersection` returns `colinear-overlapping` when any endpoint of
one segment equals an endpoint of the other; otherwise it returns
`colinear-joint` exactly when all eight components of the four
endpoint-difference vectors are strictly negative, and
`colinear-disjoint` in every remaining case. -/
theorem line_intersection_colinear_cases (a b : Line)
    (hn : Line.numerator a b = 0) (hd : Line.denominator a b = 0) :
    (Line.touches a b = true → Line.intersection a b = .colinearOverlapping) ∧
    (Line.touches a b = false →
      ((Line.intersection a b = .colinearJoint ↔ ∀ d ∈ Line.differences a b, d < 0) ∧
        (¬(∀ d ∈ Line.differences a b, d < 0) →
          Line.intersection a b = .colinearDisjoint))) := by
  have hbase : Line.intersection a b =
      (if Line.touches a b then .colinearOverlapping
       else if Line.allNegative a b then .colinearJoint else .colinearDisjoint) := by
    unfold Line.intersection
    rw [if_pos ⟨hn, hd⟩]
  have hall : Line.allNegative a b = true ↔ ∀ d ∈ Line.differences a b, d < 0 := by
    simp [Line.allNegative]
  constructor
  · intro ht
    rw [hbase, if_pos ht]
  · intro ht
    rw [hbase, if_neg (by simp [ht])]
    by_cases hneg : Line.allNegative a b
    · rw [if_pos hneg]
      exact ⟨⟨fun _ => hall.mp hneg, fun _ => rfl⟩, fun hc => absurd (hall.mp hneg) hc⟩
    · rw [if_neg hneg]
      refine ⟨⟨fun hc => absurd hc (by simp), fun hc => ?_⟩, fun _ => rfl⟩
      exact absurd (hall.mpr hc) hneg

/-- Witness for C4: the colinear disjoint pair `(0,0)-(1,0)` and
`(3,0)-(4,0)`: no endpoints touch, a difference component is
nonnegative, and the result is `colinear-disjoint`. -/
theorem line_intersection_colinear_cases_witness :
    Line.numerator (segOf 0 0 1 0) (segOf 3 0 4 0) = 0 ∧
    Line.denominator (segOf 0 0 1 0) (segOf 3 0 4 0) = 0 ∧
    (Line.touches (segOf 0 0 1 0) (segOf 3 0 4 0) = false →
      ((Line.intersection (segOf 0 0 1 0) (segOf 3 0 4 0) = .colinearJoint ↔
          ∀ d ∈ Line.differences (segOf 0 0 1 0) (segOf 3 0 4 0), d < 0) ∧
        (¬(∀ d ∈ Line.differences (segOf 0 0 1 0) (segOf 3 0 4 0), d < 0) →
          Line.intersection (segOf 0 0 1 0) (segOf 3 0 4 0) = .colinearDisjoint))) :=
  ⟨by norm_num [Line.numerator, Line.startDiff, Line.endDiff, Vector2D.subtract,
      Vector2D.crossProduct, segOf],
   by norm_num [Line.denominator, Line.endDiff, Line.lineDiff, Vector2D.subtract,
      Vector2D.crossProduct, segOf],
   (line_intersection_colinear_cases (segOf 0 0 1 0) (segOf 3 0 4 0)
      (by norm_num [Line.numerator, Line.startDiff, Line.endDiff, Vector2D.subtract,
        Vector2D.crossProduct, segOf])
      (by norm_num [Line.denominator, Line.endDiff, Line.lineDiff, Vector2D.subtract,
        Vector2D.crossProduct, segOf])).2⟩

/-- A ray at angle `0` (cosine `1`, sine `0` — both exact in the source's
float arithmetic) with length `10⁻⁷`. -/
def tinyRay : Line :=
  { startPoint := ⟨0, 0⟩, endPoint := ⟨0, 0⟩, angleC := 1, angleS := 0,
    length := 1 / 10000000, intersectionPoint := none }

/-- Counterexample to C5 as stated: for a segment of length `10⁻⁷` at
angle `0`, `update((0,0))` stores the end point `(0, 0)` — the rotated
`y` component `10⁻⁷` prints as `1e-7` and is snapped to `0` by
`rotateSelf` — whereas `start + (0, length)` rotated by the
construction-time angle (the spec's plain rotation) is `(0, 10⁻⁷)`. -/
theorem line_update_snap_counterexample :
    (Line.update tinyRay ⟨0, 0⟩).endPoint = ⟨0, 0⟩ ∧
    Vector2D.rotateSpec
      (Vector2D.addScalar (Line.update tinyRay ⟨0, 0⟩).startPoint 0 tinyRay.length)
      (Line.update tinyRay ⟨0, 0⟩).startPoint tinyRay.angleC tinyRay.angleS =
      ⟨0, 1 / 10000000⟩ ∧
    (Line.update tinyRay ⟨0, 0⟩).endPoint ≠
      Vector2D.rotateSpec
        (Vector2D.addScalar (Line.update tinyRay ⟨0, 0⟩).startPoint 0 tinyRay.length)
        (Line.update tinyRay ⟨0, 0⟩).startPoint tinyRay.angleC tinyRay.angleS := by
  refine ⟨?_, ?_, ?_⟩ <;>
    norm_num [Line.update, Vector2D.rotateSelfCS, Vector2D.rotateSpec, Vector2D.snapTiny,
      Vector2D.addScalar, tinyRay, abs]

/-- C5 amended: after `update(p)` the segment's start equals `p` and its
end is `start` translated by `(0, length)` then rotated by the
construction-time angle around `start` *with the source's zero-snap
applied* (a rotated component of magnitude below `10⁻⁶` — one JavaScript
prints with a negative scientific exponent — is stored as `0`); updating
twice with the same origin yields the same segment. -/
theorem line_update_endpoint_invariant (l : Line) (p : Vector2D) :
    (Line.update l p).startPoint = p ∧
    (Line.update l p).endPoint =
      Vector2D.rotateSelfCS
        (Vector2D.addScalar (Line.update l p).startPoint 0 l.length)
        (Line.update l p).startPoint l.angleC l.angleS ∧
    Line.update (Line.update l p) p = Line.update l p :=
  ⟨rfl, rfl, rfl⟩

/-- C9: `Line.update` writes only the two endpoints; the stored
`intersectionPoint` (and the angle and length configuration) keep their
previous values. -/
theorem line_update_keeps_intersectionPoint (l : Line) (p : Vector2D) :
    (Line.update l p).intersectionPoint = l.intersectionPoint ∧
    (Line.update l p).angleC = l.angleC ∧
    (Line.update l p).angleS = l.angleS ∧
    (Line.update l p).length = l.length :=
  ⟨rfl, rfl, rfl, rfl⟩

/-- C10: `Line.intersection` is observably pure: the state-observing form
of the call leaves both segments exactly as they were and returns the
same result as the pure algorithm. -/
theorem line_intersection_pure (a b : Line) :
    (Line.intersectionCall a b).2.1 = a ∧
    (Line.intersectionCall a b).2.2 = b ∧
    (Line.intersectionCall a b).1 = Line.intersection a b :=
  ⟨rfl, rfl, rfl⟩

/-- C6: every binary vector operation (`add`, `subtract`, `multiply`,
`divide` and their `*Self` counterparts) called with an operand that is
not a `Vector2D` instance — the missing argument `undefined` included —
throws a `TypeError` and returns with the receiver's components
unchanged; no coercion happens and no result vector is produced. -/
theorem vector_binary_ops_typecheck (v : Vector2D) (a : JsVal)
    (h : Vector2D.typeCheckVector a = none) :
    Vector2D.addCall v a = (.error (), v) ∧
    Vector2D.subtractCall v a = (.error (), v) ∧
    Vector2D.multiplyCall v a = (.error (), v) ∧
    Vector2D.divideCall v a = (.error (), v) ∧
    Vector2D.addSelfCall v a = (.error (), v) ∧
    Vector2D.subtractSelfCall v a = (.error (), v) ∧
    Vector2D.multiplySelfCall v a = (.error (), v) ∧
    Vector2D.divideSelfCall v a = (.error (), v) := by
  simp [Vector2D.addCall, Vector2D.subtractCall, Vector2D.multiplyCall, Vector2D.divideCall,
    Vector2D.addSelfCall, Vector2D.subtractSelfCall, Vector2D.multiplySelfCall,
    Vector2D.divideSelfCall, h]

/-- Witness for C6: a missing argument fails the `instanceof` check and
`add` on the receiver `(1, 2)` throws with the receiver intact. -/
theorem vector_binary_ops_typecheck_witness :
    Vector2D.typeCheckVector .undef = none ∧
    Vector2D.addCall ⟨1, 2⟩ .undef = (.error (), ⟨1, 2⟩) :=
  ⟨rfl, (vector_binary_ops_typecheck ⟨1, 2⟩ .undef rfl).1⟩

/-- C7: `normalize` of a zero-magnitude vector returns the zero vector
and `normalizeSelf` leaves the vector unchanged (the legacy variant
returns the documented sentinel `(1, 1)`); for every nonzero-magnitude
vector the magnitude divisor is nonzero, so the division-by-zero branch
is unreachable. -/
theorem vector_normalize_zero_guard (v : Vector2D) :
    (Vector2D.magnitudeSq v = 0 →
      Vector2D.normalize v = (0, 0) ∧
      Vector2D.normalizeSelf v = ((v.x : ℝ), (v.y : ℝ)) ∧
      Vector2D.legacyNormalize v = (1, 1)) ∧
    (Vector2D.magnitudeSq v ≠ 0 → Vector2D.magnitudeR v ≠ 0) := by
  constructor
  · intro h
    simp [Vector2D.normalize, Vector2D.normalizeSelf, Vector2D.legacyNormalize, h]
  · intro h
    have hpos : (0 : ℚ) < v.x ^ 2 + v.y ^ 2 :=
      lt_of_le_of_ne (by positivity) (Ne.symm h)
    have hposR : (0 : ℝ) < (v.x : ℝ) ^ 2 + (v.y : ℝ) ^ 2 := by exact_mod_cast hpos
    unfold Vector2D.magnitudeR
    exact ne_of_gt (Real.sqrt_pos.mpr hposR)

/-- Witness for C7: the zero vector has zero squared magnitude and
normalises to the zero vector. -/
theorem vector_normalize_zero_guard_witness :
    Vector2D.magnitudeSq ⟨0, 0⟩ = 0 ∧ Vector2D.normalize ⟨0, 0⟩ = (0, 0) :=
  ⟨by norm_num [Vector2D.magnitudeSq],
   ((vector_normalize_zero_guard ⟨0, 0⟩).1 (by norm_num [Vector2D.magnitudeSq])).1⟩

/-- C8: ray `i` of a bundle of `amount` rays over the span
`[aMin, aMax)` is assigned the angle `aMin + i * (aMax - aMin) / amount`. -/
theorem rays_angle_distribution (amount : ℕ) (aMin aMax : ℚ) (i : ℕ) (h : i < amount) :
    (rayAngles amount (aMin, aMax))[i]? = some (aMin + i * (aMax - aMin) / amount) := by
  have h0 : 0 < amount := Nat.lt_of_le_of_lt (Nat.zero_le i) h
  have hne : ((amount : ℚ)) ≠ 0 := Nat.cast_ne_zero.mpr h0.ne'
  rw [rayAngles, List.getElem?_map, List.getElem?_range h, Option.map_some']
  refine congrArg some ?_
  rw [clampBetweenRanges]
  field_simp
  ring

/-- Witness for C8: with `amount = 4` over `[0, 360)`, ray `1` receives
the angle `0 + 1 * (360 - 0) / 4 = 90`. -/
theorem rays_angle_distribution_witness :
    (1 < 4) ∧ (rayAngles 4 (0, 360))[1]? = some (0 + (1 : ℕ) * ((360 : ℚ) - 0) / 4) :=
  ⟨by norm_num, rays_angle_distribution 4 0 360 1 (by norm_num)⟩

namespace Rays

/-- Invariant of the closest-hit scan after processing the obstacles in
`obs`: either nothing carried a point so far and the tracking state is
still `(null, Infinity)`, or the state holds a carried point of minimal
distance together with its (squared) distance as the record. -/
def scanInv (ray : Line) (obs : List Line) (st : Option Vector2D × Option ℚ) : Prop :=
  (st = (none, none) ∧ ∀ p, ¬carries ray obs p) ∨
  (∃ p, st.1 = some p ∧ st.2 = some (Vector2D.distanceSq ray.startPoint p) ∧
    carries ray obs p ∧
    ∀ q, carries ray obs q →
      Vector2D.distanceSq ray.startPoint p ≤ Vector2D.distanceSq ray.startPoint q)

theorem carries_append (ray : Line) (l1 l2 : List Line) (q : Vector2D) :
    carries ray (l1 ++ l2) q ↔ carries ray l1 q ∨ carries ray l2 q := by
  simp [carries, List.mem_append, or_and_right, exists_or]

theorem carries_nil (ray : Line) (q : Vector2D) : ¬carries ray [] q := by
  simp [carries]

theorem carries_single (ray ob : Line) (q : Vector2D) :
    carries ray [ob] q ↔ Line.intersection ray ob = .intersection q := by
  simp [carries]

theorem step_preserves_scanInv (ray : Line) (prev : List Line)
    (st : Option Vector2D × Option ℚ) (ob : Line) (hInv : scanInv ray prev st) :
    scanInv ray (prev ++ [ob]) (step ray st ob) := by
  rcases hres : Line.intersection ray ob with _ | _ | _ | _ | p | _
  case intersection =>
    have hd : step ray st ob =
        (if better (Vector2D.distanceSq ray.startPoint p) st.2 then
          (some p, some (Vector2D.distanceSq ray.startPoint p)) else st) := by
      simp [step, hres]
    rcases hInv with ⟨hst, hnone⟩ | ⟨p0, h1, h2, hc, hmin⟩
    · rw [hd, hst]
      simp only [better, if_pos]
      refine Or.inr ⟨p, rfl, rfl, ?_, ?_⟩
      · exact (carries_append ray prev [ob] p).mpr (Or.inr ((carries_single ray ob p).mpr hres))
      · intro q hq
        rcases (carries_append ray prev [ob] q).mp hq with hq1 | hq2
        · exact absurd hq1 (hnone q)
        · have : p = q := by
            have := (carries_single ray ob q).mp hq2
            rw [hres] at this
            exact (IntersectionResult.intersection.injEq _ _).mp this
          rw [this]
    · rw [hd, h2]
      by_cases hlt : Vector2D.distanceSq ray.startPoint p <
          Vector2D.distanceSq ray.startPoint p0
      · rw [if_pos (by simp [better, hlt])]
        refine Or.inr ⟨p, rfl, rfl, ?_, ?_⟩
        · exact (carries_append ray prev [ob] p).mpr
            (Or.inr ((carries_single ray ob p).mpr hres))
        · intro q hq
          rcases (carries_append ray prev [ob] q).mp hq with hq1 | hq2
          · exact le_of_lt (lt_of_lt_of_le hlt (hmin q hq1))
          · have : p = q := by
              have := (carries_single ray ob q).mp hq2
              rw [hres] at this
              exact (IntersectionResult.intersection.injEq _ _).mp this
            rw [this]
      · rw [if_neg (by simp [better, hlt])]
        refine Or.inr ⟨p0, h1, h2, (carries_append ray prev [ob] p0).mpr (Or.inl hc), ?_⟩
        intro q hq
        rcases (carries_append ray prev [ob] q).mp hq with hq1 | hq2
        · exact hmin q hq1
        · have : p = q := by
            have := (carries_single ray ob q).mp hq2
            rw [hres] at this
            exact (IntersectionResult.intersection.injEq _ _).mp this
          rw [← this]
          exact not_lt.mp hlt
  all_goals {
    have hd : step ray st ob = st := by simp [step, hres]
    have hnocarry : ∀ q, ¬carries ray [ob] q := by
      intro q hq
      have := (carries_single ray ob q).mp hq
      rw [hres] at this
      exact IntersectionResult.noConfusion this
    rw [hd]
    rcases hInv with ⟨hst, hnone⟩ | ⟨p0, h1, h2, hc, hmin⟩
    · refine Or.inl ⟨hst, fun q hq => ?_⟩
      rcases (carries_append ray prev [ob] q).mp hq with hq1 | hq2
      · exact hnone q hq1
      · exact hnocarry q hq2
    · refine Or.inr ⟨p0, h1, h2, (carries_append ray prev [ob] p0).mpr (Or.inl hc), ?_⟩
      intro q hq
      rcases (carries_append ray prev [ob] q).mp hq with hq1 | hq2
      · exact hmin q hq1
      · exact absurd hq2 (hnocarry q)
  }

theorem foldl_scanInv (ray : Line) :
    ∀ (obs prev : List Line) (st : Option Vector2D × Option ℚ),
      scanInv ray prev st → scanInv ray (prev ++ obs) (obs.foldl (step ray) st)
  | [], prev, st, h => by simpa using h
  | ob :: rest, prev, st, h => by
    have hstep := step_preserves_scanInv ray prev st ob h
    have := foldl_scanInv ray rest (prev ++ [ob]) (step ray st ob) hstep
    simpa [List.append_assoc] using this

/-- The `(closest, record)` components of the full loop are those of the
pure closest-hit scan: the in-loop `intersectionPoint` assignment does
not feed back into the tracking. -/
theorem loop_proj (ray : Line) :
    ∀ (obs : List Line) (st : Option Vector2D × Option Vector2D × Option ℚ),
      (obs.foldl (loopStep ray) st).2 = obs.foldl (step ray) st.2
  | [], st => rfl
  | ob :: rest, st => by
    rw [List.foldl_cons, List.foldl_cons, loop_proj ray rest]
    rfl

/-- After a nonempty obstacle scan, the `intersectionPoint` the loop last
assigned is `closest ? closest : end.clone()` for the final tracking
state. -/
theorem loop_ip_sync (ray : Line) :
    ∀ (obs : List Line) (st : Option Vector2D × Option Vector2D × Option ℚ), obs ≠ [] →
      (obs.foldl (loopStep ray) st).1 =
        some (((obs.foldl (loopStep ray) st).2.1).getD (Vector2D.clone ray.endPoint))
  | [], _, h => absurd rfl h
  | [ob], st, _ => rfl
  | ob :: ob2 :: rest, st, _ => by
    rw [List.foldl_cons, List.foldl_cons]
    have := loop_ip_sync ray (ob2 :: rest) (loopStep ray st ob) (by simp)
    rw [List.foldl_cons] at this
    exact this

end Rays

/-- C2: over a nonempty obstacle list, the bundle scan maps the per-ray
scan over every ray; a ray for which some obstacle's result carries a
point ends with `intersectionPoint` equal to a carried point of minimal
distance from its start, and a ray for which no result carries a point
ends with a copy of its natural end point. -/
theorem rays_intersect_closest (rays obstacles : List Line) (hne : obstacles ≠ []) :
    Rays.intersect rays obstacles = rays.map (fun l => Rays.intersectLine l obstacles) ∧
    ∀ ray ∈ rays,
      ((∃ p, Rays.carries ray obstacles p) →
        ∃ p, (Rays.intersectLine ray obstacles).intersectionPoint = some p ∧
          Rays.carries ray obstacles p ∧
          ∀ q, Rays.carries ray obstacles q →
            Vector2D.distanceSq ray.startPoint p ≤ Vector2D.distanceSq ray.startPoint q) ∧
      ((∀ p, ¬Rays.carries ray obstacles p) →
        (Rays.intersectLine ray obstacles).intersectionPoint =
          some (Vector2D.clone ray.endPoint)) := by
  refine ⟨rfl, fun ray _ => ?_⟩
  have hip : (Rays.intersectLine ray obstacles).intersectionPoint =
      (obstacles.foldl (Rays.loopStep ray) (ray.intersectionPoint, none, none)).1 := rfl
  have hsync := Rays.loop_ip_sync ray obstacles (ray.intersectionPoint, none, none) hne
  have hproj := Rays.loop_proj ray obstacles (ray.intersectionPoint, none, none)
  have hbase : Rays.scanInv ray [] (none, none) :=
    Or.inl ⟨rfl, fun p => Rays.carries_nil ray p⟩
  have hInv := Rays.foldl_scanInv ray obstacles [] (none, none) hbase
  rw [List.nil_append] at hInv
  constructor
  · rintro ⟨p, hp⟩
    rcases hInv with ⟨_, hnone⟩ | ⟨p0, h1, h2, hc, hmin⟩
    · exact absurd hp (hnone p)
    · refine ⟨p0, ?_, hc, hmin⟩
      rw [hip, hsync, hproj]
      simp [h1]
  · intro hnone
    rcases hInv with ⟨hst, _⟩ | ⟨p0, _, _, hc, _⟩
    · rw [hip, hsync, hproj]
      simp [hst]
    · exact absurd hc (hnone p0)

/-- Witness for C2: the vertical ray `(0,0)-(0,10)` against the single
horizontal obstacle `(-1,5)-(1,5)`: the scan stores the carried crossing
point `(0,5)`, minimal among all carried points. -/
theorem rays_intersect_closest_witness :
    ([segOf (-1) 5 1 5] ≠ ([] : List Line)) ∧
    (∃ p, (Rays.intersectLine (segOf 0 0 0 10) [segOf (-1) 5 1 5]).intersectionPoint = some p ∧
      Rays.carries (segOf 0 0 0 10) [segOf (-1) 5 1 5] p ∧
      ∀ q, Rays.carries (segOf 0 0 0 10) [segOf (-1) 5 1 5] q →
        Vector2D.distanceSq (segOf 0 0 0 10).startPoint p ≤
          Vector2D.distanceSq (segOf 0 0 0 10).startPoint q) := by
  have hcar : Rays.carries (segOf 0 0 0 10) [segOf (-1) 5 1 5] ⟨0, 5⟩ := by
    refine ⟨segOf (-1) 5 1 5, by simp, ?_⟩
    norm_num [Line.intersection, Line.numerator, Line.denominator, Line.startDiff, Line.endDiff,
      Line.lineDiff, Line.fallsWithin, Line.tParam, Line.uParam, Line.crossingPoint,
      Vector2D.subtract, Vector2D.crossProduct, Vector2D.add, Vector2D.multiplyScalar, segOf]
  refine ⟨by simp, ?_⟩
  exact ((rays_intersect_closest [segOf 0 0 0 10] [segOf (-1) 5 1 5] (by simp)).2
    (segOf 0 0 0 10) (by simp)).1 ⟨⟨0, 5⟩, hcar⟩

/-- A ray with a stale stored hit: its `intersectionPoint` holds `(1, 1)`
while its natural end is `(0, 10)`. -/
def staleRay : Line :=
  { startPoint := ⟨0, 0⟩, endPoint := ⟨0, 10⟩, angleC := 1, angleS := 0, length := 10,
    intersectionPoint := some ⟨1, 1⟩ }

/-- Counterexample to C3 as stated: with an empty obstacle list the
obstacle loop never runs, so `intersect` leaves the stored
`intersectionPoint` untouched — here a stale `(1, 1)` that differs from
the ray's natural end point `(0, 10)`. -/
theorem rays_intersect_empty_stale :
    Rays.intersect [staleRay] [] = [staleRay] ∧
    staleRay.intersectionPoint = some ⟨1, 1⟩ ∧
    staleRay.endPoint = ⟨0, 10⟩ ∧
    staleRay.intersectionPoint ≠ some staleRay.endPoint := by
  refine ⟨rfl, rfl, rfl, ?_⟩
  simp [staleRay]

/-- C3 amended: with an empty obstacle list, `intersect` performs no
assignment at all: every ray — its stored `intersectionPoint` included —
is left exactly as it was (its visible terminus therefore equals the
natural end point only when no `intersectionPoint` was stored). -/
theorem rays_intersect_empty_noop (rays : List Line) :
    Rays.intersect rays [] = rays := by
  have h : ∀ l : Line, Rays.intersectLine l [] = l := fun l => rfl
  simp [Rays.intersect, h]
